import Mathlib

/- Verification development for the Disaster Recovery Inventory Management
System (src/app.py).  The data model (Item, Donor, Beneficiary,
Transaction), the derived-stock aggregation of get_stock_query, the
low-stock flag of the dashboard, and the intake, distribute, item_new
and import_items handlers are shallowly embedded below.  Python strings are
modelled as Lean strings, with the string primitives used by the code
(strip, lower, whitespace split, int()) implemented over the character
list so that concrete instances evaluate inside the kernel.  Machine-level
concerns that the handlers rely on are made explicit: the SQL SUM over an
outer join yields NULL (here: none) for an item with no transactions, and
Python operations that can raise (int() on a malformed literal, ordering a
None against an int) are embedded as Except values. -/

namespace DRIMS

/- ---------- Python / SQL string primitives ---------- -/

/- ASCII case fold, the effect of both Python str.lower() and SQL lower()
on the names appearing in this development. -/
def lowerChar (c : Char) : Char :=
  if 65 ≤ c.toNat ∧ c.toNat ≤ 90 then Char.ofNat (c.toNat + 32) else c

def strLower (s : String) : String :=
  ⟨s.data.map lowerChar⟩

/- Python str.strip(): drop leading and trailing whitespace. -/
def trimChars (l : List Char) : List Char :=
  ((l.dropWhile Char.isWhitespace).reverse.dropWhile Char.isWhitespace).reverse

def pyStrip (s : String) : String :=
  ⟨trimChars s.data⟩

/- Python str.split() with no argument: maximal runs of non-whitespace. -/
def splitWSGo : List Char → List Char → List (List Char)
  | [], acc => if acc = [] then [] else [acc.reverse]
  | c :: cs, acc =>
    if Char.isWhitespace c then
      if acc = [] then splitWSGo cs [] else acc.reverse :: splitWSGo cs []
    else splitWSGo cs (c :: acc)

def pyWords (l : List Char) : List (List Char) :=
  splitWSGo l []

def joinSpace : List (List Char) → List Char
  | [] => []
  | [w] => w
  | w :: ws => w ++ ' ' :: joinSpace ws

/- app.py line 57-58: normalize_name(s) = " ".join((s or "").strip().lower().split()). -/
def normalize_name (s : String) : String :=
  ⟨joinSpace (pyWords (trimChars (s.data.map lowerChar)))⟩

/- The idiom `x.strip() or None` used for optional form fields. -/
def strOrNone (s : String) : Option String :=
  if pyStrip s = "" then none else some (pyStrip s)

/- Python int(str): optional surrounding whitespace, optional sign, at
least one ASCII digit; anything else raises ValueError. -/
def digitsToNat (l : List Char) : Nat :=
  l.foldl (fun n c => n * 10 + (c.toNat - 48)) 0

def pyIntOfString (s : String) : Except String Int :=
  let t := trimChars s.data
  let (sign, ds) :=
    match t with
    | '-' :: rest => ((-1 : Int), rest)
    | '+' :: rest => ((1 : Int), rest)
    | rest => ((1 : Int), rest)
  if ds ≠ [] ∧ ds.all Char.isDigit then
    Except.ok (sign * (digitsToNat ds : Int))
  else
    Except.error ("ValueError: invalid literal for int() with base 10: " ++ s)

/- ---------- Data model (app.py lines 16-54) ---------- -/

/- Item: catalogue entry.  created_at style metadata is not modelled; the
integer min_qty comes from Python int form input, hence Int. -/
structure Item where
  id : Nat
  sku : Option String
  name : String
  category : Option String
  unit : String
  min_qty : Int
  notes : Option String
deriving DecidableEq

structure Donor where
  id : Nat
  name : String
  contact : Option String
deriving DecidableEq

structure Beneficiary where
  id : Nat
  name : String
  contact : Option String
  parish : Option String
deriving DecidableEq

/- Transaction: one ledger entry.  The created_at timestamp is modelled by
the position in the transaction list (entries are only appended). -/
structure Transaction where
  id : Nat
  item_id : Nat
  ttype : String
  qty : Int
  location_id : Option Nat
  donor_id : Option Nat
  beneficiary_id : Option Nat
  notes : Option String
deriving DecidableEq

/- The relational store as seen through the session. -/
structure Store where
  items : List Item
  donors : List Donor
  beneficiaries : List Beneficiary
  transactions : List Transaction
deriving DecidableEq

/- ---------- Derived stock (app.py lines 60-65) ---------- -/

/- The CASE expression of get_stock_query: qty when ttype = "IN", else -qty. -/
def signedQty (t : Transaction) : Int :=
  if t.ttype = "IN" then t.qty else -t.qty

/- The outer-joined SUM of get_stock_query for one item: SQL SUM over an
empty row set is NULL, hence none when the item has no transactions. -/
def stockAgg (txs : List Transaction) (iid : Nat) : Option Int :=
  let rows := txs.filter (fun t => decide (t.item_id = iid))
  if rows.isEmpty then none else some ((rows.map signedQty).sum)

/- The `stock or 0` coercion applied by every reader that displays a
balance (dashboard line 85, line 81). -/
def orZero : Option Int → Int
  | none => 0
  | some s => s

/- The formula of the spec, stated with the words of the spec: sum of IN quantities
and sum of OUT quantities of the entries referencing the item. -/
def sumInQty (txs : List Transaction) (iid : Nat) : Int :=
  ((txs.filter (fun t => decide (t.item_id = iid ∧ t.ttype = "IN"))).map (fun t => t.qty)).sum

def sumOutQty (txs : List Transaction) (iid : Nat) : Int :=
  ((txs.filter (fun t => decide (t.item_id = iid ∧ t.ttype = "OUT"))).map (fun t => t.qty)).sum

/- ---------- Low-stock flag (app.py line 86) ---------- -/

/- `if item.min_qty and stock < item.min_qty`: Python int truthiness is
nonzeroness. -/
def lowFlag (min_qty stock : Int) : Bool :=
  decide (min_qty ≠ 0) && decide (stock < min_qty)

/- ---------- Lemmas about the stock aggregation ---------- -/

theorem orZero_stockAgg (txs : List Transaction) (iid : Nat) :
    orZero (stockAgg txs iid) =
      ((txs.filter (fun t => decide (t.item_id = iid))).map signedQty).sum := by
  unfold stockAgg
  cases h : txs.filter (fun t => decide (t.item_id = iid)) with
  | nil => simp [h, orZero]
  | cons a l => simp [h, orZero]

theorem signedSum_split (txs : List Transaction) (iid : Nat)
    (h : ∀ t ∈ txs, t.ttype = "IN" ∨ t.ttype = "OUT") :
    ((txs.filter (fun t => decide (t.item_id = iid))).map signedQty).sum =
      sumInQty txs iid - sumOutQty txs iid := by
  induction txs with
  | nil => simp [sumInQty, sumOutQty]
  | cons t ts ih =>
    have ht := h t (List.mem_cons_self t ts)
    have hts : ∀ x ∈ ts, x.ttype = "IN" ∨ x.ttype = "OUT" :=
      fun x hx => h x (List.mem_cons_of_mem t hx)
    have ih' := ih hts
    by_cases hid : t.item_id = iid
    · rcases ht with htt | htt
      · simp [sumInQty, sumOutQty, List.filter_cons, hid, htt, signedQty] at *
        omega
      · simp [sumInQty, sumOutQty, List.filter_cons, hid, htt, signedQty] at *
        omega
    · simp [sumInQty, sumOutQty, List.filter_cons, hid] at *
      omega

theorem stock_perm_invariant (txs txs' : List Transaction) (iid : Nat)
    (hp : txs.Perm txs') :
    orZero (stockAgg txs' iid) = orZero (stockAgg txs iid) := by
  rw [orZero_stockAgg, orZero_stockAgg]
  exact (((hp.filter _).map signedQty).sum_eq).symm

/- Concrete ledger entries used by witnesses. -/
def txIn20 : Transaction := ⟨1, 1, "IN", 20, none, none, none, none⟩

def txOut5 : Transaction := ⟨2, 1, "OUT", 5, none, none, none, none⟩

def txIn7 : Transaction := ⟨3, 2, "IN", 7, none, none, none, none⟩

/-- C1: for every ledger whose direction tags are all IN or OUT and every
item, the balance derived by the stock query (the outer-joined signed SUM,
coerced as every reader does) equals the sum of the IN quantities of the item
minus the sum of its OUT quantities, and the value is unchanged by any
reordering of the ledger entries. -/
theorem c1_stock_signed_sum (txs txs' : List Transaction) (iid : Nat)
    (h : ∀ t ∈ txs, t.ttype = "IN" ∨ t.ttype = "OUT")
    (hp : txs.Perm txs') :
    orZero (stockAgg txs iid) = sumInQty txs iid - sumOutQty txs iid ∧
    orZero (stockAgg txs' iid) = orZero (stockAgg txs iid) :=
  ⟨(orZero_stockAgg txs iid).trans (signedSum_split txs iid h),
   stock_perm_invariant txs txs' iid hp⟩

/-- C1 witness: the balance of item 1 under the ledger IN 20, OUT 5, IN 7
(the last entry on another item) equals its IN sum minus its OUT sum, and
a reordering of the ledger leaves it unchanged. -/
theorem c1_stock_signed_sum_witness :
    orZero (stockAgg [txIn20, txOut5, txIn7] 1) =
      sumInQty [txIn20, txOut5, txIn7] 1 - sumOutQty [txIn20, txOut5, txIn7] 1 ∧
    orZero (stockAgg [txIn7, txOut5, txIn20] 1) =
      orZero (stockAgg [txIn20, txOut5, txIn7] 1) :=
  c1_stock_signed_sum [txIn20, txOut5, txIn7] [txIn7, txOut5, txIn20] 1
    (by decide) (by decide)

/-- C4: for every item threshold that satisfies the data-model
non-negativity invariant and every derived stock value, the low-stock flag
computed by the dashboard is true iff the threshold is strictly positive
and the stock is strictly below it; in particular the flag is false when
the threshold is 0. -/
theorem c4_low_flag_iff (min_qty stock : Int) (h : 0 ≤ min_qty) :
    lowFlag min_qty stock = true ↔ (0 < min_qty ∧ stock < min_qty) := by
  unfold lowFlag
  simp only [Bool.and_eq_true, decide_eq_true_eq]
  omega

/-- C4 witness: with threshold 10 and stock 5 the flag is true iff 0 < 10
and 5 < 10. -/
theorem c4_low_flag_iff_witness :
    lowFlag 10 5 = true ↔ ((0 : Int) < 10 ∧ (5 : Int) < 10) :=
  c4_low_flag_iff 10 5 (by decide)

/-- C5: an item with zero ledger entries has derived balance 0, and its
low-stock flag is true iff its min_qty is strictly positive. -/
theorem c5_empty_ledger_stock (it : Item) (txs : List Transaction)
    (h : txs.filter (fun t => decide (t.item_id = it.id)) = []) :
    orZero (stockAgg txs it.id) = 0 ∧
    (lowFlag it.min_qty (orZero (stockAgg txs it.id)) = true ↔ 0 < it.min_qty) := by
  have hz : orZero (stockAgg txs it.id) = 0 := by
    rw [orZero_stockAgg, h]
    simp
  refine ⟨hz, ?_⟩
  rw [hz]
  unfold lowFlag
  simp only [Bool.and_eq_true, decide_eq_true_eq]
  omega

/- Concrete item used by witnesses. -/
def tarpItem : Item := ⟨1, none, "Tarpaulin", none, "unit", 10, none⟩

/-- C5 witness: item 1 (threshold 10) with a ledger that only references
item 2 has balance 0 and is flagged low-stock. -/
theorem c5_empty_ledger_stock_witness :
    orZero (stockAgg [txIn7] tarpItem.id) = 0 ∧
    (lowFlag tarpItem.min_qty (orZero (stockAgg [txIn7] tarpItem.id)) = true ↔
      0 < tarpItem.min_qty) :=
  c5_empty_ledger_stock tarpItem [txIn7] (by decide)

/- ---------- Intake handler (app.py lines 150-174, POST branch) ---------- -/

/- intake: find-or-create the donor by exact name, then unconditionally
append one IN entry.  The handler performs no validation of qty (or of the
item) before writing.  Autoincrement ids are modelled as length + 1. -/
def intake (st : Store) (item_id : Nat) (qty : Int) (donor_name_raw : String)
    (location_id : Option Nat) (notes_raw : String) : Store :=
  let donor_name := strOrNone donor_name_raw
  let find_or_create : Option Donor × List Donor :=
    match donor_name with
    | none => (none, st.donors)
    | some nm =>
      match st.donors.find? (fun d => decide (d.name = nm)) with
      | some d => (some d, st.donors)
      | none =>
        let nd : Donor := ⟨st.donors.length + 1, nm, none⟩
        (some nd, st.donors ++ [nd])
  let donor := find_or_create.1
  let donors := find_or_create.2
  let notes := strOrNone notes_raw
  let tx : Transaction :=
    ⟨st.transactions.length + 1, item_id, "IN", qty, location_id,
      donor.map (fun d => d.id), none, notes⟩
  { st with donors := donors, transactions := st.transactions ++ [tx] }

/- ---------- Distribute handler (app.py lines 176-207, POST branch) ---------- -/

inductive DistOutcome where
  | rejected
  | recorded
deriving DecidableEq

/- distribute: find-or-create the beneficiary (add + flush, lines 186-192),
then build stock_map from get_stock_query and compare.  Every catalogue
item is a key of stock_map; an item with no transactions maps to the
NULL sum, i.e. none, and `stock_map.get(item_id, 0)` returns that none
because the key is present — the 0 default applies only to ids absent
from the catalogue.  Comparing none with an int raises TypeError. -/
def distribute (st : Store) (item_id : Nat) (qty : Int)
    (beneficiary_name_raw parish_raw : String) (location_id : Option Nat)
    (notes_raw : String) : Except String (DistOutcome × Store) :=
  let beneficiary_name := strOrNone beneficiary_name_raw
  let parish := strOrNone parish_raw
  let find_or_create : Option Beneficiary × List Beneficiary :=
    match beneficiary_name with
    | none => (none, st.beneficiaries)
    | some nm =>
      match st.beneficiaries.find? (fun b => decide (b.name = nm)) with
      | some b => (some b, st.beneficiaries)
      | none =>
        let nb : Beneficiary := ⟨st.beneficiaries.length + 1, nm, none, parish⟩
        (some nb, st.beneficiaries ++ [nb])
  let beneficiary := find_or_create.1
  let beneficiaries := find_or_create.2
  let notes := strOrNone notes_raw
  let stock_value : Option Int :=
    match st.items.find? (fun it => decide (it.id = item_id)) with
    | none => some 0
    | some _ => stockAgg st.transactions item_id
  match stock_value with
  | none => Except.error "TypeError: unorderable comparison between NoneType and int"
  | some s =>
    if s < qty then
      Except.ok (DistOutcome.rejected, { st with beneficiaries := beneficiaries })
    else
      let tx : Transaction :=
        ⟨st.transactions.length + 1, item_id, "OUT", qty, location_id, none,
          beneficiary.map (fun b => b.id), notes⟩
      Except.ok (DistOutcome.recorded,
        { st with beneficiaries := beneficiaries,
                  transactions := st.transactions ++ [tx] })

/- Decidable equality for Except values, used to evaluate the handlers on
concrete inputs. -/
instance {ε α : Type} [DecidableEq ε] [DecidableEq α] : DecidableEq (Except ε α) := fun a b =>
  match a, b with
  | Except.ok x, Except.ok y =>
    if h : x = y then isTrue (by rw [h]) else isFalse (by intro hc; cases hc; exact h rfl)
  | Except.error x, Except.error y =>
    if h : x = y then isTrue (by rw [h]) else isFalse (by intro hc; cases hc; exact h rfl)
  | Except.ok _, Except.error _ => isFalse (by intro hc; cases hc)
  | Except.error _, Except.ok _ => isFalse (by intro hc; cases hc)

/- ---------- Item creation handler (app.py lines 111-133, POST branch) ---------- -/

inductive ItemNewResult where
  | dupRedirect (existing_id : Nat)
  | created (items : List Item)
deriving DecidableEq

/- The `.strip() or "unit"` defaulting applied to the unit field. -/
def unitOrDefault (s : String) : String :=
  match strOrNone s with
  | none => "unit"
  | some u => u

/- The duplicate guard of item_new (lines 122-123) and import_items
(lines 253-254): the first existing item whose SQL-lowercased stored name
equals the normalized proposed name, with exactly equal category (NULL
matching NULL) and unit. -/
def guardMatch (items : List Item) (name : String) (category : Option String)
    (unit : String) : Option Item :=
  items.find? (fun it =>
    decide (strLower it.name = normalize_name name ∧
      it.category = category ∧ it.unit = unit))

/- item_new: parse the form fields (min_qty through int(), which raises on
a malformed literal), then apply the duplicate guard: a match causes a
redirect to the edit page of the existing item; otherwise the item is created. -/
def itemNew (items : List Item)
    (name_raw category_raw unit_raw sku_raw min_qty_raw notes_raw : String) :
    Except String ItemNewResult :=
  let name := pyStrip name_raw
  let category := strOrNone category_raw
  let unit := unitOrDefault unit_raw
  let sku := strOrNone sku_raw
  let min_qty_res :=
    if min_qty_raw = "" then Except.ok (0 : Int) else pyIntOfString min_qty_raw
  match min_qty_res with
  | Except.error e => Except.error e
  | Except.ok min_qty =>
    let notes := strOrNone notes_raw
    match guardMatch items name category unit with
    | some existing => Except.ok (ItemNewResult.dupRedirect existing.id)
    | none =>
      Except.ok (ItemNewResult.created
        (items ++ [⟨items.length + 1, sku, name, category, unit, min_qty, notes⟩]))

/- ---------- Bulk import handler (app.py lines 234-264, POST branch) ---------- -/

/- A CSV cell as it reaches the row loop through pandas: a column can be
missing from the file, or hold a string or a numeric value. -/
inductive Cell where
  | absent
  | str (s : String)
  | int (n : Int)
deriving DecidableEq

/- row.get(column, default). -/
def cellGet (c d : Cell) : Cell :=
  match c with
  | Cell.absent => d
  | c => c

/- Python str() applied to a cell value. -/
def pyStrOfCell : Cell → String
  | Cell.absent => "None"
  | Cell.str s => s
  | Cell.int n => toString n

/- Python truthiness of a cell value. -/
def truthyCell : Cell → Bool
  | Cell.absent => false
  | Cell.str s => decide (s ≠ "")
  | Cell.int n => decide (n ≠ 0)

/- Python `a or b`. -/
def pyOrCell (a b : Cell) : Cell :=
  if truthyCell a then a else b

/- Python int() applied to a cell value. -/
def pyIntOfCell : Cell → Except String Int
  | Cell.int n => Except.ok n
  | Cell.str s => pyIntOfString s
  | Cell.absent => Except.error "TypeError: int() argument is not a string or a number"

/- One import row-record with the columns read by the loop. -/
structure Row where
  name : Cell := Cell.absent
  category : Cell := Cell.absent
  unit : Cell := Cell.absent
  sku : Cell := Cell.absent
  min_qty : Cell := Cell.absent
  notes : Cell := Cell.absent
deriving DecidableEq

/- Field extraction exactly as in lines 244-251; only rowMinQty can raise. -/
def rowName (r : Row) : String :=
  pyStrip (pyStrOfCell (cellGet r.name (Cell.str "")))

def rowCategory (r : Row) : Option String :=
  strOrNone (pyStrOfCell (cellGet r.category (Cell.str "")))

def rowUnit (r : Row) : String :=
  unitOrDefault (pyStrOfCell (cellGet r.unit (Cell.str "unit")))

def rowSku (r : Row) : Option String :=
  strOrNone (pyStrOfCell (cellGet r.sku (Cell.str "")))

def rowMinQty (r : Row) : Except String Int :=
  pyIntOfCell (pyOrCell (cellGet r.min_qty (Cell.int 0)) (Cell.int 0))

def rowNotes (r : Row) : Option String :=
  strOrNone (pyStrOfCell (cellGet r.notes (Cell.str "")))

def isBlankRow (r : Row) : Bool :=
  decide (rowName r = "")

/- The row loop of import_items.  A blank name skips the row without
counting it; a duplicate-guard match counts it as skipped; otherwise the
item is created (visible to the guard for later rows, as the session
autoflush makes pending adds visible to the query).  An exception from
int() propagates and aborts the whole batch: no counts are reported and,
since commit is only reached after the loop, no row is persisted. -/
def bulkImportLoop : List Item → Nat → Nat → List Row → Except String (Nat × Nat × List Item)
  | items, created, skipped, [] => Except.ok (created, skipped, items)
  | items, created, skipped, r :: rs =>
    if rowName r = "" then
      bulkImportLoop items created skipped rs
    else
      match rowMinQty r with
      | Except.error e => Except.error e
      | Except.ok mq =>
        match guardMatch items (rowName r) (rowCategory r) (rowUnit r) with
        | some _ => bulkImportLoop items created (skipped + 1) rs
        | none =>
          bulkImportLoop
            (items ++ [⟨items.length + 1, rowSku r, rowName r, rowCategory r, rowUnit r, mq, rowNotes r⟩])
            (created + 1) skipped rs

/- import_items: run the loop over all rows with both counters at 0. -/
def bulkImport (items : List Item) (rows : List Row) :
    Except String (Nat × Nat × List Item) :=
  bulkImportLoop items 0 0 rows

/- ---------- Concrete catalogue entries for the remaining claims ---------- -/

def riceItem : Item := ⟨1, none, "Rice", some "Food", "kg", 0, none⟩

def ricePuddingItem : Item := ⟨1, none, "Rice  Pudding", some "Food", "kg", 0, none⟩

def waterItem : Item := ⟨2, none, "Water", some "Water", "L", 0, none⟩

/-- C2 (code bug): the spec requires a distribution whose quantity exceeds
the recomputed balance to be rejected with an insufficient-stock message;
for an item that exists but has zero ledger entries the recomputed balance
is 0 (the spec formula gives 0), yet the handler does not reject: the
outer-joined sum is None for that item, `stock_map.get(item_id, 0)` returns
that None, and the comparison raises a TypeError, so the request fails
with an error instead of the insufficient-stock rejection. -/
theorem c2_zero_entry_distribute_raises :
    sumInQty ([] : List Transaction) 1 - sumOutQty ([] : List Transaction) 1 = 0 ∧
    distribute ⟨[tarpItem], [], [], []⟩ 1 1 "" "" none "" =
      Except.error "TypeError: unorderable comparison between NoneType and int" := by
  decide

/-- C3 (code bug): the intake handler performs no quantity validation: an
intake request with qty 0 appends an IN ledger entry with qty 0 and
creates the new donor row, and an intake request with a negative quantity
also appends an entry, contradicting the reject-before-any-write
precondition of the spec. -/
theorem c3_intake_writes_nonpositive_qty :
    (intake ⟨[tarpItem], [], [], []⟩ 1 0 "Alice" none "").transactions =
      [⟨1, 1, "IN", 0, none, some 1, none, none⟩] ∧
    (intake ⟨[tarpItem], [], [], []⟩ 1 0 "Alice" none "").donors =
      [⟨1, "Alice", none⟩] ∧
    (intake ⟨[tarpItem], [], [], []⟩ 1 (-3) "" none "").transactions =
      [⟨1, 1, "IN", -3, none, none, none, none⟩] := by
  decide

/-- C6 counterexample: the catalogue holds "Rice  Pudding" (double internal
space, Food, kg); the proposal " rice pudding " has the same normalized
name (trim, collapse internal whitespace, case-fold), the same category and
the same unit, yet creation is not rejected: the guard compares the merely
case-folded stored name against the normalized proposal and misses, so a
second item is created. -/
theorem c6_guard_counterexample :
    normalize_name "Rice  Pudding" = normalize_name " rice pudding " ∧
    ricePuddingItem.category = some "Food" ∧ ricePuddingItem.unit = "kg" ∧
    itemNew [ricePuddingItem] " rice pudding " "Food" "kg" "" "0" "" =
      Except.ok (ItemNewResult.created
        [ricePuddingItem, ⟨2, none, "rice pudding", some "Food", "kg", 0, none⟩]) := by
  decide

/-- C6 (amended): item creation rejects and surfaces the identifier of an
existing item exactly when some existing item has its case-folded stored
name (not whitespace-renormalized) equal to the normalized proposed name,
with the same category (including both absent) and the same unit; with no
such item a new item is created from the given fields.  In particular,
after creating ("Rice", "Food", "kg"), the attempt (" rice ", "Food",
"kg") is rejected referencing item 1, while ("Rice", "Food", "L")
succeeds as a new item. -/
theorem c6_guard_amended :
    (∀ (items : List Item) (nm cat unitR sku mq nts : String) (j : Nat),
      itemNew items nm cat unitR sku mq nts = Except.ok (ItemNewResult.dupRedirect j) →
      ∃ it ∈ items, it.id = j ∧ strLower it.name = normalize_name (pyStrip nm) ∧
        it.category = strOrNone cat ∧ it.unit = unitOrDefault unitR) ∧
    (∀ (items : List Item) (nm cat unitR sku nts : String),
      (∀ it ∈ items, ¬(strLower it.name = normalize_name (pyStrip nm) ∧
          it.category = strOrNone cat ∧ it.unit = unitOrDefault unitR)) →
      itemNew items nm cat unitR sku "0" nts =
        Except.ok (ItemNewResult.created (items ++
          [⟨items.length + 1, strOrNone sku, pyStrip nm, strOrNone cat,
            unitOrDefault unitR, 0, strOrNone nts⟩]))) ∧
    itemNew [] "Rice" "Food" "kg" "" "0" "" =
      Except.ok (ItemNewResult.created [riceItem]) ∧
    itemNew [riceItem] " rice " "Food" "kg" "" "0" "" =
      Except.ok (ItemNewResult.dupRedirect 1) ∧
    itemNew [riceItem] "Rice" "Food" "L" "" "0" "" =
      Except.ok (ItemNewResult.created
        [riceItem, ⟨2, none, "Rice", some "Food", "L", 0, none⟩]) := by
  refine ⟨?_, ?_, by decide, by decide, by decide⟩
  · intro items nm cat unitR sku mq nts j h
    simp only [itemNew] at h
    split at h
    · cases h
    · rename_i m hm
      cases hg : guardMatch items (pyStrip nm) (strOrNone cat) (unitOrDefault unitR) with
      | none => rw [hg] at h; cases h
      | some it =>
        rw [hg] at h
        have hj : it.id = j := by
          have := h
          injection this with h1
          injection h1
        have hp := List.find?_some hg
        have hmem := List.mem_of_find?_eq_some hg
        simp only [decide_eq_true_eq] at hp
        exact ⟨it, hmem, hj, hp.1, hp.2.1, hp.2.2⟩
  · intro items nm cat unitR sku nts hnone
    have hg : guardMatch items (pyStrip nm) (strOrNone cat) (unitOrDefault unitR) = none := by
      unfold guardMatch
      rw [List.find?_eq_none]
      intro it hit
      simp only [decide_eq_true_eq]
      exact hnone it hit
    have h0 : pyIntOfString "0" = Except.ok (0 : Int) := by decide
    simp only [itemNew, h0, hg, if_neg (show ¬("0" : String) = "" by decide)]

/-- C6 witness: with the catalogue holding only "Rice" (Food, kg), no item
matches the proposal "Beans" (Food, kg), so a new item "Beans" is created
and appended. -/
theorem c6_guard_amended_witness :
    itemNew [riceItem] "Beans" "Food" "kg" "" "0" "" =
      Except.ok (ItemNewResult.created ([riceItem] ++
        [⟨[riceItem].length + 1, strOrNone "", pyStrip "Beans", strOrNone "Food",
          unitOrDefault "kg", 0, strOrNone ""⟩])) :=
  c6_guard_amended.2.1 [riceItem] "Beans" "Food" "kg" "" "" (by decide)

/- Accounting invariant of the import row loop: when the loop completes,
every row was either skipped for a blank name, counted as a skipped
duplicate, or created (growing the catalogue by one). -/
theorem bulkImportLoop_counts (rows : List Row) :
    ∀ (items : List Item) (c s c' s' : Nat) (fin : List Item),
      bulkImportLoop items c s rows = Except.ok (c', s', fin) →
      c' + s' + rows.countP isBlankRow = c + s + rows.length ∧
      fin.length + c = items.length + c' := by
  induction rows with
  | nil =>
    intro items c s c' s' fin h
    simp only [bulkImportLoop] at h
    injection h with h1
    injection h1 with hc h2
    injection h2 with hs hfin
    subst hc; subst hs; subst hfin
    simp
  | cons r rs ih =>
    intro items c s c' s' fin h
    simp only [bulkImportLoop] at h
    by_cases hb : rowName r = ""
    · rw [if_pos hb] at h
      have := ih items c s c' s' fin h
      have hbl : isBlankRow r = true := by
        simp [isBlankRow, hb]
      simp only [List.countP_cons, hbl, if_pos, List.length_cons]
      omega
    · rw [if_neg hb] at h
      have hbl : isBlankRow r = false := by
        simp [isBlankRow, hb]
      cases hmq : rowMinQty r with
      | error e => rw [hmq] at h; cases h
      | ok mq =>
        rw [hmq] at h
        cases hg : guardMatch items (rowName r) (rowCategory r) (rowUnit r) with
        | some it =>
          rw [hg] at h
          have := ih items c (s + 1) c' s' fin h
          simp [List.countP_cons, hbl]
          omega
        | none =>
          rw [hg] at h
          have := ih
            (items ++ [⟨items.length + 1, rowSku r, rowName r, rowCategory r, rowUnit r, mq, rowNotes r⟩])
            (c + 1) s c' s' fin h
          simp [List.countP_cons, hbl, List.length_append] at *
          omega

/- The 3-row scenario of the spec: a fresh row, a duplicate of the
existing Rice item, and a blank-name row. -/
def c7rows : List Row :=
  [{ name := Cell.str "Tent", min_qty := Cell.int 5 },
   { name := Cell.str " rice ", category := Cell.str "Food", unit := Cell.str "kg" },
   { name := Cell.str "" }]

/-- C7: whenever bulk import completes, every row was processed — rows
with blank names are skipped without counting, duplicate-guard matches are
counted as skipped, and each remaining row creates an item, so created +
skipped + blank rows equals the number of rows and the catalogue grows by
exactly the created count; in the 3-row scenario (row 2 duplicates the
existing Rice item, row 3 has a blank name) exactly one item is created
and the reported counts are created = 1, skipped = 1. -/
theorem c7_bulk_import (items : List Item) (rows : List Row)
    (created skipped : Nat) (final : List Item)
    (h : bulkImport items rows = Except.ok (created, skipped, final)) :
    (created + skipped + rows.countP isBlankRow = rows.length ∧
      final.length = items.length + created) ∧
    bulkImport [riceItem] c7rows =
      Except.ok (1, 1, [riceItem, ⟨2, none, "Tent", none, "unit", 5, none⟩]) := by
  have hc := bulkImportLoop_counts rows items 0 0 created skipped final h
  exact ⟨⟨by omega, by omega⟩, by decide⟩

/-- C7 witness: in the 3-row scenario the counts 1 created and 1 skipped
together with the one blank row account for all 3 rows, and the catalogue
grew from 1 item to 2. -/
theorem c7_bulk_import_witness :
    ((1 : Nat) + 1 + c7rows.countP isBlankRow = c7rows.length ∧
      ([riceItem, ⟨2, none, "Tent", none, "unit", 5, none⟩] : List Item).length =
        ([riceItem] : List Item).length + 1) ∧
    bulkImport [riceItem] c7rows =
      Except.ok (1, 1, [riceItem, ⟨2, none, "Tent", none, "unit", 5, none⟩]) :=
  c7_bulk_import [riceItem] c7rows 1 1
    [riceItem, ⟨2, none, "Tent", none, "unit", 5, none⟩] (by decide)

/-- C8 (code bug): a malformed min_qty field does not default to 0: the
`or 0` only rescues falsy values, so int("abc") raises ValueError and the
unhandled exception aborts the entire batch — a single bad row makes
the import return no counts at all and commit nothing, even when the other
rows are well-formed. -/
theorem c8_malformed_min_qty_aborts :
    bulkImport [] [{ name := Cell.str "Tent", min_qty := Cell.str "abc" }] =
      Except.error "ValueError: invalid literal for int() with base 10: abc" ∧
    bulkImport []
      [{ name := Cell.str "Blanket" },
       { name := Cell.str "Tent", min_qty := Cell.str "abc" },
       { name := Cell.str "Cot" }] =
      Except.error "ValueError: invalid literal for int() with base 10: abc" := by
  decide

/-- C9 counterexample: with "Water" (item 2) in the catalogue and a ledger
holding only item-1 entries, the stock lookup for item 2 yields the NULL
sum — not a non-null value — and the distribution request raises a
TypeError instead of completing the stock check. -/
theorem c9_null_stock_counterexample :
    stockAgg [txIn20] 2 = none ∧
    distribute ⟨[tarpItem, waterItem], [], [], [txIn20]⟩ 2 3 "" "" none "" =
      Except.error "TypeError: unorderable comparison between NoneType and int" := by
  decide

/-- C9 (amended): for every catalogued item with zero ledger entries, the
outer-joined sum is NULL/None, stock_map.get(item_id, 0) returns that None
(the 0 default applies only to ids absent from the catalogue), and
evaluating None < qty raises a TypeError: the stock check does not
complete and the distribution request fails with an error rather than an
insufficient-stock rejection. -/
theorem c9_zero_entry_distribute_raises (st : Store) (iid : Nat) (qty : Int)
    (bname parishr notesr : String) (loc : Option Nat)
    (hmem : (st.items.find? (fun it => decide (it.id = iid))).isSome = true)
    (hempty : st.transactions.filter (fun t => decide (t.item_id = iid)) = []) :
    distribute st iid qty bname parishr loc notesr =
      Except.error "TypeError: unorderable comparison between NoneType and int" := by
  obtain ⟨it, hit⟩ := Option.isSome_iff_exists.mp hmem
  have hagg : stockAgg st.transactions iid = none := by
    unfold stockAgg
    rw [hempty]
    rfl
  simp only [distribute, hit, hagg]

/-- C9 witness: a store with items 1 and 2, a beneficiary on file and a
ledger referencing only item 1: a distribution of 1 unit of item 2 raises
the TypeError. -/
theorem c9_zero_entry_distribute_raises_witness :
    distribute ⟨[tarpItem, waterItem], [], [⟨1, "Ann", none, none⟩], [txIn20, txOut5]⟩
        2 1 "" "" none "" =
      Except.error "TypeError: unorderable comparison between NoneType and int" :=
  c9_zero_entry_distribute_raises
    ⟨[tarpItem, waterItem], [], [⟨1, "Ann", none, none⟩], [txIn20, txOut5]⟩
    2 1 "" "" "" none (by decide) (by decide)

/-- C10: a distribution rejected for insufficient stock (the item has a
non-null recomputed balance strictly below the requested quantity) that
supplied a beneficiary name not on file is not free of side effects: the
handler returns the rejection with a new Beneficiary row appended to the
counterparty table — which therefore differs from its state before the
request — while the transactions are untouched. -/
theorem c10_rejection_creates_beneficiary (st : Store) (iid : Nat) (qty s : Int)
    (braw parishr bn : String)
    (hb : strOrNone braw = some bn)
    (hnf : st.beneficiaries.find? (fun b => decide (b.name = bn)) = none)
    (hitem : (st.items.find? (fun it => decide (it.id = iid))).isSome = true)
    (hstock : stockAgg st.transactions iid = some s)
    (hlt : s < qty) :
    distribute st iid qty braw parishr none "" =
      Except.ok (DistOutcome.rejected,
        { st with beneficiaries :=
            st.beneficiaries ++ [⟨st.beneficiaries.length + 1, bn, none, strOrNone parishr⟩] }) ∧
    st.beneficiaries ++ [⟨st.beneficiaries.length + 1, bn, none, strOrNone parishr⟩] ≠
      st.beneficiaries := by
  obtain ⟨it, hit⟩ := Option.isSome_iff_exists.mp hitem
  constructor
  · simp only [distribute, hb, hnf, hit, hstock, if_pos hlt]
  · intro hcontra
    have := congrArg List.length hcontra
    simp at this

/-- C10 witness: item 1 has balance 15 (IN 20, OUT 5); a distribution of
20 naming the unknown beneficiary "Bob" is rejected, yet the counterparty
table now holds Bob while the ledger is unchanged. -/
theorem c10_rejection_creates_beneficiary_witness :
    distribute ⟨[tarpItem], [], [], [txIn20, txOut5]⟩ 1 20 "Bob" "St. Ann" none "" =
      Except.ok (DistOutcome.rejected,
        ⟨[tarpItem], [], [⟨1, "Bob", none, some "St. Ann"⟩], [txIn20, txOut5]⟩) ∧
    ([] : List Beneficiary) ++ [⟨1, "Bob", none, some "St. Ann"⟩] ≠ ([] : List Beneficiary) :=
  c10_rejection_creates_beneficiary ⟨[tarpItem], [], [], [txIn20, txOut5]⟩ 1 20 15
    "Bob" "St. Ann" "Bob" (by decide) (by decide) (by decide) (by decide) (by decide)

end DRIMS
